import Mathlib

/-!
Shallow embedding of the HovverAdminDashboard backend (Python/FastAPI) for
specification checking.

The modelled source files are:
* `api/services/auth.py`   — Cognito wrapper: role derivation, customer-id
  derivation, login error translation, temporary-password generation,
  customer creation, welcome-email resending.
* `api/services/s3.py`     — S3 wrapper: key generation, upload validation,
  listing, customer-scoped listing, deletion.
* `api/services/email.py`  — SES wrapper (welcome email, outcome modelled as
  a boolean in the provider environment).
* `api/routers/images.py`  — HTTP endpoints for upload / list / delete.

External AWS calls are modelled by passing the provider's response as an
explicit argument (an `Except`/`Option` of the data the Python code reads
out of the boto3 response).  Python `dict` claims maps are modelled by a
structure holding the claim keys the code reads, each as an `Option` so that
an absent key is distinguishable from a present one.  Python truthiness on
strings (`if s:` / `a or b`) is modelled explicitly: an empty string is
falsy.
-/

namespace Hovver

/-- An HTTP error as produced by FastAPI's `HTTPException`:
a status code and a `detail` message. -/
structure HttpError where
  status : Nat
  detail : String
  deriving Repr, DecidableEq

instance {ε α : Type} [DecidableEq ε] [DecidableEq α] :
    DecidableEq (Except ε α) := fun a b =>
  match a, b with
  | .ok x, .ok y => decidable_of_iff (x = y) (by simp)
  | .error x, .error y => decidable_of_iff (x = y) (by simp)
  | .ok _, .error _ => isFalse (by simp)
  | .error _, .ok _ => isFalse (by simp)

/-- Python truthiness for `str | None` values: `None` and `""` are falsy. -/
def pyTruthy : Option String → Bool
  | none => false
  | some s => s ≠ ""

/-- Python `a or b` on `str | None` values: returns `a` when truthy, else `b`. -/
def pyOr (a b : Option String) : Option String :=
  if pyTruthy a then a else b

/-- The token claims map (`Dict[str, Any]`), restricted to the keys the
modelled code reads: `cognito:groups`, `custom:customer_id`, `sub`,
`username`, `cognito:username`.  `none` models an absent key. -/
structure Claims where
  groups : Option (List String)
  customCustomerId : Option String
  sub : Option String
  username : Option String
  cognitoUsername : Option String
  deriving Repr, DecidableEq

/-- `user.get("cognito:groups", [])` — the groups claim with `[]` default. -/
def Claims.groupsOrEmpty (u : Claims) : List String :=
  u.groups.getD []

/-- `auth.py::get_user_role` — role from the `cognito:groups` claim. -/
def get_user_role (user : Claims) : String :=
  let groups := user.groupsOrEmpty
  if "Admins" ∈ groups then "admin"
  else if "Customers" ∈ groups then "customer"
  else "unknown"

/-- `auth.py::get_customer_id` — `user.get("custom:customer_id") or
user.get("sub")`. -/
def get_customer_id (user : Claims) : Option String :=
  pyOr user.customCustomerId user.sub

/-! ### String utilities

Python string operations, modelled directly on the character list of a
`String` so that every operation is a structural recursion the kernel can
evaluate.  `pyStrip` and `pyIsdigit` model the ASCII fragment of Python's
`str.strip` / `str.isdigit`; the real functions are Unicode-aware (e.g.
`'٠'.isdigit()` is `True` and `'\xa0'` is stripped), so for strings
containing non-ASCII code points the two models are strictly narrower than
Python.  On all-ASCII strings they are exact (ASCII has no digit-property
characters beyond `0-9` and no strippable whitespace beyond
`\t\n\x0b\x0c\r` and space).  The one theorem whose truth depends on these
two functions — the phone-validation equivalence — therefore carries an
explicit all-ASCII hypothesis on the phone input. -/

/-- Python `f"{v}"` on a `str | None` value: `None` renders as `"None"`. -/
def pyStr : Option String → String
  | none => "None"
  | some s => s

/-- Whitespace characters removed by Python `str.strip()`, ASCII fragment:
Python also strips non-ASCII whitespace such as `\xa0`, which this model
does not; exact on all-ASCII strings. -/
def pyIsSpace (c : Char) : Bool :=
  c == ' ' || c == '\t' || c == '\n' || c == '\r' || c == '\x0b' || c == '\x0c'

/-- Python `s.strip()`, ASCII fragment (see `pyIsSpace`). -/
def pyStrip (s : String) : String :=
  String.mk (((s.data.dropWhile pyIsSpace).reverse.dropWhile pyIsSpace).reverse)

/-- Python `s.isdigit()`, ASCII fragment: non-empty and all characters in
`0-9`.  Python's `str.isdigit` additionally accepts non-ASCII digit code
points (Unicode category `Nd` and `Numeric_Type=Digit`, e.g. the
Arabic-Indic digits `٠-٩`), so this model rejects some strings the real
check accepts; exact on all-ASCII strings. -/
def pyIsdigit (s : String) : Bool :=
  !s.data.isEmpty && s.data.all Char.isDigit

/-- Python `s.startswith(pre)`. -/
def pyStartsWith (s pre : String) : Bool :=
  pre.data.isPrefixOf s.data

/-- Python `s[1:]`. -/
def pyTail (s : String) : String :=
  String.mk s.data.tail

/-- Python `s.split(sep)` for a one-character separator. -/
def splitChar (sep : Char) : List Char → List (List Char)
  | [] => [[]]
  | c :: cs =>
    match splitChar sep cs with
    | [] => if c == sep then [[], []] else [[c]]
    | h :: t => if c == sep then [] :: h :: t else (c :: h) :: t

/-- Python `s.rsplit('.', 1)`: the part before the last dot and, when a dot
exists, the part after it. -/
def rsplitDot (l : List Char) : List Char × Option (List Char) :=
  match splitChar '.' l with
  | [] => (l, none)
  | [_] => (l, none)
  | parts => (List.intercalate ['.'] parts.dropLast, parts.getLast?)

/-- Python code-point comparison of strings (`<` on `str`), as a structural
recursion on the character lists. -/
def charListLt : List Char → List Char → Bool
  | [], [] => false
  | [], _ :: _ => true
  | _ :: _, [] => false
  | a :: as, b :: bs =>
    if a.val < b.val then true
    else if b.val < a.val then false
    else charListLt as bs

/-- Python `a < b` on strings. -/
def pyStrLt (a b : String) : Bool :=
  charListLt a.data b.data

/-- `pathlib.Path(s).name`: the final path component.  `pathlib` drops empty
and `"."` components when parsing, so the name is the last remaining
component (empty when there is none). -/
def pathName (s : String) : String :=
  String.mk ((((splitChar '/' s.data).filter
    (fun c => !c.isEmpty && c != ['.'])).getLastD []))

/-! ### Object storage model (`api/services/s3.py`)

The bucket is modelled as the list of stored objects, in the key order in
which `list_objects_v2` would return them.  Provider calls that only shape
data (`head_object` metadata, presigned-URL generation) are modelled as pure
functions; the no-claim-relevant failure translation of `put_object` /
`delete_object` / `list_objects_v2` ClientErrors to HTTP 500 is not
modelled, since every claim under verification is settled before or without
reaching those branches. -/

/-- An object stored in the bucket.  `lastModified` is the ISO timestamp
string S3 reports (the Python code compares these as strings).  The
user-defined metadata dictionary stored alongside is elided: no claim reads
it back. -/
structure S3Object where
  key : String
  size : Nat
  lastModified : String
  contentType : String
  deriving Repr, DecidableEq

/-- One entry of a list response (`s3.py::list_images` image_info dict). -/
structure ImageInfo where
  key : String
  size : Nat
  lastModified : String
  presignedUrl : String
  contentType : String
  deriving Repr, DecidableEq

/-- `s3.py::S3Service.generate_presigned_url`, modelled abstractly as an
injective function of the key; no claim depends on the URL's shape. -/
def generate_presigned_url (s3Key : String) : String :=
  "presigned:" ++ s3Key

/-- `list_objects_v2(Bucket, Prefix, MaxKeys)`: the first `maxKeys` objects
whose key starts with the requested key filter. -/
def list_objects_v2 (bucket : List S3Object) (pfx : String) (maxKeys : Nat) :
    List S3Object :=
  (bucket.filter (fun o => pyStartsWith o.key pfx)).take maxKeys

/-- `s3.py::S3Service.list_images` — list objects under `pfx` and build the
image dictionaries (every object is modelled as accessible, so the
`head_object`-failure skip branch is never taken). -/
def list_images (bucket : List S3Object) (pfx : String) (maxKeys : Nat) :
    List ImageInfo :=
  (list_objects_v2 bucket pfx maxKeys).map fun o =>
    { key := o.key
      size := o.size
      lastModified := o.lastModified
      presignedUrl := generate_presigned_url o.key
      contentType := o.contentType }

/-- The customer scope key filter `f"customers/{customer_id}/"` built in
`list_images_for_customer`; a `None` customer id renders as the literal
`None`. -/
def customerScopePfx (customerId : Option String) : String :=
  "customers/" ++ pyStr customerId ++ "/"

/-- Python `images.sort(key=lambda x: x['last_modified'], reverse=True)`:
stable descending sort by the `last_modified` string. -/
def sortByLastModifiedDesc (images : List ImageInfo) : List ImageInfo :=
  images.mergeSort fun a b => !pyStrLt a.lastModified b.lastModified

/-- `s3.py::S3Service.list_images_for_customer` — the customer's own scope
plus the general scope, merged and sorted newest-first.  The Python
parameter is annotated `str` but the router passes the possibly-`None`
derived customer id through, hence `Option String` here. -/
def list_images_for_customer (bucket : List S3Object)
    (customerId : Option String) (maxKeys : Nat) : List ImageInfo :=
  let customerImages := list_images bucket (customerScopePfx customerId) maxKeys
  let generalImages := list_images bucket "general/" maxKeys
  sortByLastModifiedDesc (customerImages ++ generalImages)

/-- `config.py::Settings.max_file_size` (10 MB). -/
def max_file_size : Nat := 10 * 1024 * 1024

/-- `config.py::Settings.allowed_image_types`. -/
def allowed_image_types : List String :=
  ["image/jpeg", "image/png", "image/webp", "image/gif"]

/-- An uploaded file (`fastapi.UploadFile`): the claimed size header is
optional and may disagree with the actual content. -/
structure UploadedFile where
  filename : String
  contentType : String
  sizeAttr : Option Nat
  content : List Nat
  deriving Repr, DecidableEq

/-- `s3.py::S3Service._validate_image` — content-type allow-list and size
bound.  `file.size and file.size > max` is Python truthiness: a present size
of `0` skips the bound check. -/
def validate_image (file : UploadedFile) : Option HttpError :=
  if file.contentType ∉ allowed_image_types then
    some ⟨400, "Invalid file type. Allowed types: " ++
      String.intercalate ", " allowed_image_types⟩
  else
    match file.sizeAttr with
    | some n =>
      if n ≠ 0 ∧ n > max_file_size then
        some ⟨400, "File too large. Maximum size: 10.0MB"⟩
      else none
    | none => none

/-- A UTC instant as read by `datetime.utcnow()` (microseconds elided: the
strftime formats used never print them). -/
structure DateTime where
  year : Nat
  month : Nat
  day : Nat
  hour : Nat
  minute : Nat
  second : Nat
  deriving Repr, DecidableEq

/-- Zero-pad to two digits (strftime `%m`, `%d`, `%H`, `%M`, `%S`). -/
def pad2 (n : Nat) : String :=
  if n < 10 then "0" ++ toString n else toString n

/-- Zero-pad to four digits (strftime `%Y` and `isoformat` years). -/
def pad4 (n : Nat) : String :=
  if n < 10 then "000" ++ toString n
  else if n < 100 then "00" ++ toString n
  else if n < 1000 then "0" ++ toString n
  else toString n

/-- `now.strftime("%Y/%m/%d")`. -/
def strfDateHier (t : DateTime) : String :=
  pad4 t.year ++ "/" ++ pad2 t.month ++ "/" ++ pad2 t.day

/-- `now.strftime("%Y%m%d_%H%M%S")`. -/
def strfCompact (t : DateTime) : String :=
  pad4 t.year ++ pad2 t.month ++ pad2 t.day ++ "_" ++
    pad2 t.hour ++ pad2 t.minute ++ pad2 t.second

/-- `now.isoformat()` (to second precision). -/
def isoFormat (t : DateTime) : String :=
  pad4 t.year ++ "-" ++ pad2 t.month ++ "-" ++ pad2 t.day ++ "T" ++
    pad2 t.hour ++ ":" ++ pad2 t.minute ++ ":" ++ pad2 t.second

/-- `s3.py::S3Service._generate_s3_key` — scope folder, date folders, and
the sanitized filename with a timestamp spliced in before the extension.
`if customer_id:` is Python truthiness, so an empty-string id falls to the
general folder. -/
def generate_s3_key (filename : String) (customerId : Option String)
    (now : DateTime) : String :=
  let datePart := strfDateHier now
  let timestamp := strfCompact now
  let safeFilename := pathName filename
  let newFilename :=
    match rsplitDot safeFilename.data with
    | (_, none) => safeFilename ++ "_" ++ timestamp
    | (name, some ext) =>
      String.mk name ++ "_" ++ timestamp ++ "." ++ String.mk ext
  if pyTruthy customerId then
    "customers/" ++ customerId.getD "" ++ "/" ++ datePart ++ "/" ++ newFilename
  else
    "general/" ++ datePart ++ "/" ++ newFilename

/-- The dictionary `s3.py::upload_image` returns on success. -/
structure UploadResult where
  success : Bool
  key : String
  filename : String
  size : Nat
  contentType : String
  uploadDate : String
  customerId : Option String
  folder : String
  deriving Repr, DecidableEq

/-- `s3.py::S3Service.upload_image` — validate, derive the key, `put_object`
(modelled as appending to the bucket), and report.  The two `utcnow()` calls
of the Python body are modelled as the single instant `now`. -/
def upload_image (bucket : List S3Object) (file : UploadedFile)
    (customerId : Option String) (_username : Option String) (now : DateTime) :
    List S3Object × Except HttpError UploadResult :=
  match validate_image file with
  | some e => (bucket, .error e)
  | none =>
    let s3Key := generate_s3_key file.filename customerId now
    let stored : S3Object :=
      { key := s3Key
        size := file.content.length
        lastModified := isoFormat now
        contentType := file.contentType }
    (bucket ++ [stored],
      .ok { success := true
            key := s3Key
            filename := file.filename
            size := file.content.length
            contentType := file.contentType
            uploadDate := isoFormat now
            customerId := customerId
            folder := if pyTruthy customerId then
                "customers/" ++ customerId.getD "" else "general" })

/-- `s3.py::S3Service.delete_image` — `delete_object` (idempotent: removes
the key if present; the provider reports success either way). -/
def delete_image (bucket : List S3Object) (s3Key : String) :
    List S3Object × Bool :=
  (bucket.filter (fun o => o.key != s3Key), true)

/-! ### HTTP endpoints (`api/routers/images.py`)

Each endpoint is a function of the bucket state, the request parameters and
the verified claims of the caller (the `get_current_user` dependency).
Endpoints that can mutate the bucket return the resulting bucket alongside
the HTTP outcome, so that "no object is stored or removed" is a statement
about the first component. -/

/-- `auth.py::require_admin` dependency — 403 unless the `Admins` group is
among the caller's groups. -/
def require_admin (currentUser : Claims) : Except HttpError Claims :=
  if "Admins" ∈ currentUser.groupsOrEmpty then .ok currentUser
  else .error ⟨403, "Admin access required"⟩

/-- `current_user.get("username") or current_user.get("cognito:username")`
(from `images.py::upload_image`). -/
def usernameOf (u : Claims) : Option String :=
  pyOr u.username u.cognitoUsername

/-- `images.py::upload_image` — customers are denied outright, admins may
target any customer folder or the general folder, any other role is
denied. -/
def upload_image_endpoint (bucket : List S3Object) (file : UploadedFile)
    (customerId : Option String) (currentUser : Claims) (now : DateTime) :
    List S3Object × Except HttpError UploadResult :=
  let userRole := get_user_role currentUser
  if userRole = "customer" then
    (bucket, .error ⟨403, "Customers cannot upload files. Contact an administrator."⟩)
  else if userRole = "admin" then
    upload_image bucket file customerId (usernameOf currentUser) now
  else
    (bucket, .error ⟨403, "Insufficient permissions to upload files"⟩)

/-- The body of a successful list response. -/
structure ImagesListResponse where
  count : Nat
  images : List ImageInfo
  deriving Repr, DecidableEq

/-- `images.py::list_images` — admins list with the request's key filter,
customers get the forced own-scope + general listing (the request's filter
is not passed on), other roles are denied. -/
def list_images_endpoint (bucket : List S3Object) (pfx : String)
    (maxKeys : Nat) (currentUser : Claims) :
    Except HttpError ImagesListResponse :=
  let userRole := get_user_role currentUser
  if userRole = "admin" then
    let images := list_images bucket pfx maxKeys
    .ok { count := images.length, images := images }
  else if userRole = "customer" then
    let images :=
      list_images_for_customer bucket (get_customer_id currentUser) maxKeys
    .ok { count := images.length, images := images }
  else
    .error ⟨403, "Insufficient permissions to list files"⟩

/-- The body of a successful delete response. -/
structure DeleteResponse where
  success : Bool
  message : String
  deriving Repr, DecidableEq

/-- `images.py::delete_image` — guarded by the `require_admin`
dependency. -/
def delete_image_endpoint (bucket : List S3Object) (key : String)
    (currentUser : Claims) : List S3Object × Except HttpError DeleteResponse :=
  match require_admin currentUser with
  | .error e => (bucket, .error e)
  | .ok _ =>
    let (bucket', success) := delete_image bucket key
    (bucket', .ok { success := success
                    message := "Image " ++ key ++ " deleted successfully" })

/-! ### Identity gateway (`api/services/auth.py`)

Cognito calls are modelled by passing the provider response (or the raised
`ClientError`'s code and message) as an explicit argument. -/

/-- A boto3 `ClientError`: `e.response['Error']['Code']` and `['Message']`.
The `message` field also stands in for `str(e)` where the Python code
interpolates the whole exception. -/
structure ClientErrorInfo where
  code : String
  message : String
  deriving Repr, DecidableEq

/-- The `AuthenticationResult` block of an `initiate_auth` response. -/
structure AuthTokens where
  accessToken : String
  idToken : String
  refreshToken : String
  expiresIn : Nat
  deriving Repr, DecidableEq

/-- An `initiate_auth` response: either key may be absent. -/
structure InitiateAuthResponse where
  challengeName : Option String
  authenticationResult : Option AuthTokens
  deriving Repr, DecidableEq

/-- The dictionary `authenticate_user` returns on success. -/
structure LoginResponse where
  accessToken : String
  idToken : String
  refreshToken : String
  tokenType : String
  expiresIn : Nat
  deriving Repr, DecidableEq

/-- `auth.py::CognitoAuth.authenticate_user` — challenge handling, result
extraction, and `ClientError` translation.  The detail of the
unexpected-response branch interpolates the response's key list in Python;
that dynamic fragment is elided. -/
def authenticate_user
    (providerResponse : Except ClientErrorInfo InitiateAuthResponse) :
    Except HttpError LoginResponse :=
  match providerResponse with
  | .ok response =>
    match response.challengeName with
    | some challengeName =>
      if challengeName = "NEW_PASSWORD_REQUIRED" then
        .error ⟨403, "New password required. Please reset your password."⟩
      else
        .error ⟨400, "Authentication challenge required: " ++ challengeName⟩
    | none =>
      match response.authenticationResult with
      | none => .error ⟨500, "Unexpected response from Cognito"⟩
      | some result =>
        .ok { accessToken := result.accessToken
              idToken := result.idToken
              refreshToken := result.refreshToken
              tokenType := "Bearer"
              expiresIn := result.expiresIn }
  | .error e =>
    if e.code = "NotAuthorizedException" then
      .error ⟨401, "Incorrect username or password"⟩
    else if e.code = "UserNotFoundException" then
      .error ⟨401, "User not found"⟩
    else if e.code = "UserNotConfirmedException" then
      .error ⟨401, "User account not confirmed"⟩
    else
      .error ⟨500, "Authentication error: " ++ e.message⟩

/-! ### Temporary password generation (`auth.py::_generate_temporary_password`)

The generator draws one character from each required class, twelve more from
the union, and shuffles.  Randomness is modelled by quantifying over the
drawn characters and over the shuffled arrangement (any permutation of the
drawn sixteen).  The same generator is invoked by `create_customer` and by
`resend_customer_welcome`; both receive its output as the explicit
`tempPassword` argument in this model. -/

/-- `string.ascii_uppercase`. -/
def asciiUppercase : List Char := "ABCDEFGHIJKLMNOPQRSTUVWXYZ".data

/-- `string.ascii_lowercase`. -/
def asciiLowercase : List Char := "abcdefghijklmnopqrstuvwxyz".data

/-- `string.digits`. -/
def asciiDigits : List Char := "0123456789".data

/-- The generator's `special` set. -/
def passwordSpecial : List Char := "!@#$%^&*".data

/-- `all_chars = uppercase + lowercase + digits + special`. -/
def passwordAllChars : List Char :=
  asciiUppercase ++ asciiLowercase ++ asciiDigits ++ passwordSpecial

/-- The sixteen characters drawn before the shuffle: one from each required
class, then the twelve union draws. -/
def temp_password_chars (c1 c2 c3 c4 : Char) (rest : List Char) : List Char :=
  [c1, c2, c3, c4] ++ rest

/-! ### Customer directory (`auth.py::create_customer`,
`auth.py::resend_customer_welcome`) -/

/-- The E.164 validation of `create_customer` (auth.py lines 636-647),
applied to a truthy phone argument: must start with `+`, the remainder all
digits, and the total length between 8 and 16.  Inherits the ASCII fragment
of `pyStrip` / `pyIsdigit`: the real check accepts phones made of non-ASCII
digit code points (e.g. `+٠٠٠٠٠٠٠`) that this model rejects, so statements
comparing it with a digits-`0-9` format are made under an all-ASCII
hypothesis on the phone. -/
def validate_phone_e164 (phoneNumber : String) : Option HttpError :=
  let p := pyStrip phoneNumber
  if !pyStartsWith p "+" then
    some ⟨400, "Phone number must be in E.164 format (e.g., +1234567890)"⟩
  else if !pyIsdigit (pyTail p) || p.length < 8 || p.length > 16 then
    some ⟨400, "Invalid phone number format. Must be E.164 format with country code (e.g., +1234567890)"⟩
  else
    none

/-- The phone step of `create_customer`: `if phone_number:` is Python
truthiness, so `None` and the empty string skip validation. -/
def phone_validation_step (phoneNumber : Option String) : Option HttpError :=
  if pyTruthy phoneNumber then validate_phone_e164 (phoneNumber.getD "")
  else none

/-- The stripped phone value that the rest of `create_customer` uses
(Python rebinds `phone_number = phone_number.strip()` in the truthy
branch). -/
def phone_after_validation (phoneNumber : Option String) : Option String :=
  if pyTruthy phoneNumber then some (pyStrip (phoneNumber.getD ""))
  else phoneNumber

/-- What `create_customer` reads out of the `admin_create_user` response:
the `sub` attribute, creation date, enabled flag and user status. -/
structure CreatedUser where
  subAttr : Option String
  createDate : String
  enabled : Bool
  userStatus : Option String
  deriving Repr, DecidableEq

/-- The Cognito/SES responses consumed by one `create_customer` run:
one per provider call, in call order.  `none` for the three follow-up admin
calls means success.  `welcomeEmailOk` records whether
`email_service.send_welcome_email` succeeded. -/
structure CreateCustomerEnv where
  adminCreateUser : Except ClientErrorInfo CreatedUser
  adminUpdateAttrs : Option ClientErrorInfo
  adminSetPassword : Option ClientErrorInfo
  adminAddToGroup : Option ClientErrorInfo
  welcomeEmailOk : Bool
  deriving Repr, DecidableEq

/-- The `except ClientError` translation at the end of `create_customer`. -/
def createCustomerErrorToHttp (e : ClientErrorInfo) : HttpError :=
  if e.code = "UsernameExistsException" then
    ⟨409, "A user with this email already exists"⟩
  else if e.code = "InvalidPasswordException" then
    ⟨400, "Password does not meet requirements: " ++ e.message⟩
  else if e.code = "InvalidParameterException" then
    ⟨400, "Invalid parameter: " ++ e.message⟩
  else
    ⟨500, "Failed to create customer: " ++ e.message⟩

/-- The dictionary `create_customer` returns on success. -/
structure CreateCustomerResult where
  customerId : Option String
  email : String
  name : String
  phoneNumber : Option String
  customerFolder : String
  createdDate : String
  enabled : Bool
  userStatus : String
  temporaryPassword : String
  deriving Repr, DecidableEq

/-- `auth.py::CognitoAuth.create_customer` — validate the phone, create the
user, set the `custom:customer_id` attribute, set the temporary password
(non-permanent), add to the `Customers` group, then best-effort send the
welcome email: an email failure is logged and swallowed, which is why the
result does not depend on `env.welcomeEmailOk`.  `tempPassword` is the
output of `_generate_temporary_password`. -/
def create_customer (email name : String) (phoneNumber : Option String)
    (tempPassword : String) (env : CreateCustomerEnv) :
    Except HttpError CreateCustomerResult :=
  match phone_validation_step phoneNumber with
  | some e => .error e
  | none =>
    match env.adminCreateUser with
    | .error e => .error (createCustomerErrorToHttp e)
    | .ok user =>
      match env.adminUpdateAttrs with
      | some e => .error (createCustomerErrorToHttp e)
      | none =>
        match env.adminSetPassword with
        | some e => .error (createCustomerErrorToHttp e)
        | none =>
          match env.adminAddToGroup with
          | some e => .error (createCustomerErrorToHttp e)
          | none =>
            .ok { customerId := user.subAttr
                  email := email
                  name := name
                  phoneNumber := phone_after_validation phoneNumber
                  customerFolder := "customers/" ++ pyStr user.subAttr
                  createdDate := user.createDate
                  enabled := user.enabled
                  userStatus := user.userStatus.getD "FORCE_CHANGE_PASSWORD"
                  temporaryPassword := tempPassword }

/-- What `resend_customer_welcome` reads out of `get_customer`. -/
structure CustomerProfile where
  email : String
  name : String
  deriving Repr, DecidableEq

/-- The provider responses consumed by one `resend_customer_welcome` run.
`get_customer` raises `HTTPException` directly (404 / 500), so its outcome
is already an `HttpError`; `adminGetUser` yields `.get('UserStatus')`. -/
structure ResendEnv where
  getCustomer : Except HttpError CustomerProfile
  adminGetUser : Except ClientErrorInfo (Option String)
  adminSetPassword : Option ClientErrorInfo
  welcomeEmailOk : Bool
  deriving Repr, DecidableEq

/-- The `except ClientError` translation at the end of
`resend_customer_welcome`. -/
def resendErrorToHttp (e : ClientErrorInfo) : HttpError :=
  if e.code = "UserNotFoundException" then ⟨404, "Customer not found"⟩
  else ⟨500, "Failed to resend welcome email: " ++ e.message⟩

/-- The dictionary `resend_customer_welcome` returns on success. -/
structure ResendResult where
  customerId : String
  email : String
  name : String
  temporaryPassword : String
  message : String
  deriving Repr, DecidableEq

/-- `auth.py::CognitoAuth.resend_customer_welcome` — allowed only in the
`FORCE_CHANGE_PASSWORD` / `RESET_REQUIRED` states; a `CONFIRMED` account is
rejected with 400 before anything is changed.  The first component of the
result is the temporary password set on the account (`none` = the account
was left untouched).  `newTempPassword` is the output of
`_generate_temporary_password`.  An email failure here raises a plain
`Exception` that the `except ClientError` handler does not catch, so it
surfaces as the framework's HTTP 500 — after the password was already
reset. -/
def resend_customer_welcome (customerId : String) (newTempPassword : String)
    (env : ResendEnv) : Option String × Except HttpError ResendResult :=
  match env.getCustomer with
  | .error e => (none, .error e)
  | .ok customer =>
    match env.adminGetUser with
    | .error e => (none, .error (resendErrorToHttp e))
    | .ok userStatus =>
      if userStatus = some "CONFIRMED" then
        (none, .error ⟨400, "Cannot resend welcome email. Customer has already set their own password. Use the forgot password flow instead."⟩)
      else if userStatus ≠ some "FORCE_CHANGE_PASSWORD" ∧
          userStatus ≠ some "RESET_REQUIRED" then
        (none, .error ⟨400, "Cannot resend welcome email. User status is " ++
          pyStr userStatus ++
          ". This feature is only for users who haven't completed initial login."⟩)
      else
        match env.adminSetPassword with
        | some e => (none, .error (resendErrorToHttp e))
        | none =>
          if env.welcomeEmailOk then
            (some newTempPassword,
              .ok { customerId := customerId
                    email := customer.email
                    name := customer.name
                    temporaryPassword := newTempPassword
                    message := "Welcome email resent with new temporary password" })
          else
            (some newTempPassword, .error ⟨500, "Internal Server Error"⟩)

/-! ### Specification-side predicates

Used only to compare the spec's wording with the code's behaviour. -/

/-- Every entry of `list_images` carries a key that starts with the
requested key filter. -/
theorem mem_list_images_startsWith {bucket : List S3Object} {pfx : String}
    {maxKeys : Nat} {img : ImageInfo}
    (himg : img ∈ list_images bucket pfx maxKeys) :
    pyStartsWith img.key pfx = true := by
  unfold list_images list_objects_v2 at himg
  obtain ⟨o, ho, rfl⟩ := List.mem_map.1 himg
  exact (List.mem_filter.1 (List.take_subset _ _ ho)).2

/-- Every entry of `list_images_for_customer` carries a key under the
customer's scope or under the general scope. -/
theorem mem_list_images_for_customer_scope {bucket : List S3Object}
    {customerId : Option String} {maxKeys : Nat} {img : ImageInfo}
    (himg : img ∈ list_images_for_customer bucket customerId maxKeys) :
    pyStartsWith img.key (customerScopePfx customerId) = true ∨
      pyStartsWith img.key "general/" = true := by
  unfold list_images_for_customer sortByLastModifiedDesc at himg
  rw [List.mem_mergeSort] at himg
  rcases List.mem_append.1 himg with h | h
  · exact Or.inl (mem_list_images_startsWith h)
  · exact Or.inr (mem_list_images_startsWith h)

/-- The derived role is `admin` exactly when the `Admins` group claim is
present. -/
theorem get_user_role_admin_iff (u : Claims) :
    get_user_role u = "admin" ↔ "Admins" ∈ u.groupsOrEmpty := by
  unfold get_user_role
  by_cases h : "Admins" ∈ u.groupsOrEmpty
  · simp [h]
  · by_cases hc : "Customers" ∈ u.groupsOrEmpty <;> simp [h, hc]

/-! ### Claims -/

/-- C1: a list request by a caller with the customer role and customer
identity `x` returns only entries whose key starts with `customers/x/` or
`general/`, and the request's key-filter parameter has no effect: two
requests differing only in that parameter return the same response. -/
theorem claim1_customer_list_scoped_filter_ignored (bucket : List S3Object)
    (u : Claims) (x p1 p2 : String) (maxKeys : Nat)
    (hrole : get_user_role u = "customer")
    (hid : get_customer_id u = some x) :
    (∃ resp, list_images_endpoint bucket p1 maxKeys u = .ok resp ∧
      ∀ img ∈ resp.images,
        pyStartsWith img.key ("customers/" ++ x ++ "/") = true ∨
          pyStartsWith img.key "general/" = true) ∧
    list_images_endpoint bucket p1 maxKeys u =
      list_images_endpoint bucket p2 maxKeys u := by
  have hendp : ∀ p : String, list_images_endpoint bucket p maxKeys u =
      .ok { count := (list_images_for_customer bucket (some x) maxKeys).length
            images := list_images_for_customer bucket (some x) maxKeys } := by
    intro p
    simp [list_images_endpoint, hrole, hid]
  refine ⟨⟨_, hendp p1, ?_⟩, (hendp p1).trans (hendp p2).symm⟩
  intro img himg
  exact mem_list_images_for_customer_scope himg

/-- Witness for C1: a concrete customer-role caller and bucket. -/
theorem claim1_witness :
    (∃ resp, list_images_endpoint
        [⟨"customers/alice/2024/01/01/a.jpg", 1, "t1", "image/jpeg"⟩,
         ⟨"general/2024/01/02/b.jpg", 2, "t2", "image/png"⟩]
        "zzz" 100
        ⟨some ["Customers"], some "alice", none, none, none⟩ = .ok resp ∧
      ∀ img ∈ resp.images,
        pyStartsWith img.key ("customers/" ++ "alice" ++ "/") = true ∨
          pyStartsWith img.key "general/" = true) ∧
    list_images_endpoint
        [⟨"customers/alice/2024/01/01/a.jpg", 1, "t1", "image/jpeg"⟩,
         ⟨"general/2024/01/02/b.jpg", 2, "t2", "image/png"⟩]
        "zzz" 100 ⟨some ["Customers"], some "alice", none, none, none⟩ =
      list_images_endpoint
        [⟨"customers/alice/2024/01/01/a.jpg", 1, "t1", "image/jpeg"⟩,
         ⟨"general/2024/01/02/b.jpg", 2, "t2", "image/png"⟩]
        "" 100 ⟨some ["Customers"], some "alice", none, none, none⟩ :=
  claim1_customer_list_scoped_filter_ignored _ _ "alice" "zzz" "" 100
    (by decide) (by decide)

/-- C2 counterexample: the two invalid-login cases do not produce identical
error results — a wrong password for an existing account translates to
`NotAuthorizedException` and a nonexistent username to
`UserNotFoundException`, and `authenticate_user` maps them to different
detail messages. -/
theorem claim2_counterexample :
    authenticate_user (.error ⟨"NotAuthorizedException", "m"⟩) ≠
      authenticate_user (.error ⟨"UserNotFoundException", "m"⟩) := by
  decide

/-- C2 (amended): both invalid-login cases fail with HTTP 401 Unauthorized,
but with different detail messages (`Incorrect username or password` vs
`User not found`), so the response does reveal whether the account
exists. -/
theorem claim2_invalid_login_statuses (m1 m2 : String) :
    authenticate_user (.error ⟨"NotAuthorizedException", m1⟩) =
      .error ⟨401, "Incorrect username or password"⟩ ∧
    authenticate_user (.error ⟨"UserNotFoundException", m2⟩) =
      .error ⟨401, "User not found"⟩ := by
  constructor <;> rfl

/-- C3: a caller whose derived role is not `admin` (customer or unknown) is
denied upload and delete with HTTP 403, and the bucket is unchanged in both
cases. -/
theorem claim3_upload_delete_forbidden (bucket : List S3Object)
    (file : UploadedFile) (customerId : Option String) (key : String)
    (u : Claims) (now : DateTime)
    (h : get_user_role u ≠ "admin") :
    ((upload_image_endpoint bucket file customerId u now).1 = bucket ∧
      ∃ e, (upload_image_endpoint bucket file customerId u now).2 =
          .error e ∧ e.status = 403) ∧
    ((delete_image_endpoint bucket key u).1 = bucket ∧
      ∃ e, (delete_image_endpoint bucket key u).2 = .error e ∧
        e.status = 403) := by
  have hadm : "Admins" ∉ u.groupsOrEmpty :=
    fun hm => h ((get_user_role_admin_iff u).2 hm)
  refine ⟨?_, ?_⟩
  · by_cases hc : "Customers" ∈ u.groupsOrEmpty
    · have hrole : get_user_role u = "customer" := by
        unfold get_user_role; simp [hadm, hc]
      exact ⟨by simp [upload_image_endpoint, hrole],
        ⟨403, "Customers cannot upload files. Contact an administrator."⟩,
        by simp [upload_image_endpoint, hrole], rfl⟩
    · have hrole : get_user_role u = "unknown" := by
        unfold get_user_role; simp [hadm, hc]
      exact ⟨by simp [upload_image_endpoint, hrole],
        ⟨403, "Insufficient permissions to upload files"⟩,
        by simp [upload_image_endpoint, hrole], rfl⟩
  · exact ⟨by simp [delete_image_endpoint, require_admin, hadm],
      ⟨403, "Admin access required"⟩,
      by simp [delete_image_endpoint, require_admin, hadm], rfl⟩

/-- Witness for C3: a concrete customer-role caller. -/
theorem claim3_witness :
    ((upload_image_endpoint [] ⟨"a.jpg", "image/jpeg", none, [1]⟩ none
        ⟨some ["Customers"], none, none, none, none⟩
        ⟨2024, 1, 1, 0, 0, 0⟩).1 = [] ∧
      ∃ e, (upload_image_endpoint [] ⟨"a.jpg", "image/jpeg", none, [1]⟩ none
          ⟨some ["Customers"], none, none, none, none⟩
          ⟨2024, 1, 1, 0, 0, 0⟩).2 = .error e ∧ e.status = 403) ∧
    ((delete_image_endpoint [] "general/x.jpg"
        ⟨some ["Customers"], none, none, none, none⟩).1 = [] ∧
      ∃ e, (delete_image_endpoint [] "general/x.jpg"
          ⟨some ["Customers"], none, none, none, none⟩).2 = .error e ∧
        e.status = 403) :=
  claim3_upload_delete_forbidden [] ⟨"a.jpg", "image/jpeg", none, [1]⟩ none
    "general/x.jpg" ⟨some ["Customers"], none, none, none, none⟩
    ⟨2024, 1, 1, 0, 0, 0⟩ (by decide)

/-- C4: the derived role is `admin` when the groups claim contains `Admins`,
`customer` when it contains `Customers` (and not `Admins`), and `unknown`
otherwise — in particular also when the groups claim is absent
altogether. -/
theorem claim4_role_derivation (u : Claims) :
    ("Admins" ∈ u.groupsOrEmpty → get_user_role u = "admin") ∧
    ("Admins" ∉ u.groupsOrEmpty → "Customers" ∈ u.groupsOrEmpty →
      get_user_role u = "customer") ∧
    ("Admins" ∉ u.groupsOrEmpty → "Customers" ∉ u.groupsOrEmpty →
      get_user_role u = "unknown") ∧
    (u.groups = none → get_user_role u = "unknown") := by
  refine ⟨fun h => ?_, fun h hc => ?_, fun h hc => ?_, fun h => ?_⟩
  · unfold get_user_role; simp [h]
  · unfold get_user_role; simp [h, hc]
  · unfold get_user_role; simp [h, hc]
  · have hg : u.groupsOrEmpty = [] := by
      unfold Claims.groupsOrEmpty; rw [h]; rfl
    unfold get_user_role; simp [hg]

/-- Witness for C4: each of the four cases at a concrete claims map —
both groups present, only `Customers`, membership in neither, and the
groups claim absent. -/
theorem claim4_witness :
    get_user_role ⟨some ["Admins", "Customers"], none, none, none, none⟩ =
      "admin" ∧
    get_user_role ⟨some ["Customers"], none, none, none, none⟩ = "customer" ∧
    get_user_role ⟨some ["Hikers"], none, none, none, none⟩ = "unknown" ∧
    get_user_role ⟨none, none, none, none, none⟩ = "unknown" :=
  ⟨(claim4_role_derivation _).1 (by decide),
    (claim4_role_derivation _).2.1 (by decide) (by decide),
    (claim4_role_derivation _).2.2.1 (by decide) (by decide),
    (claim4_role_derivation _).2.2.2 rfl⟩

/-- C5: every temporary password produced by the generator — one draw from
each required class, twelve draws from the union, shuffled — has length at
least 16 and contains at least one uppercase letter, one lowercase letter,
one digit and one symbol.  `out` ranges over every possible shuffle
result. -/
theorem claim5_temp_password_policy (c1 c2 c3 c4 : Char) (rest out : List Char)
    (h1 : c1 ∈ asciiUppercase) (h2 : c2 ∈ asciiLowercase)
    (h3 : c3 ∈ asciiDigits) (h4 : c4 ∈ passwordSpecial)
    (hlen : rest.length = 12)
    (hperm : out.Perm (temp_password_chars c1 c2 c3 c4 rest)) :
    16 ≤ (String.mk out).length ∧
    (∃ ch ∈ out, ch ∈ asciiUppercase) ∧
    (∃ ch ∈ out, ch ∈ asciiLowercase) ∧
    (∃ ch ∈ out, ch ∈ asciiDigits) ∧
    (∃ ch ∈ out, ch ∈ passwordSpecial) := by
  have hmem : ∀ c ∈ temp_password_chars c1 c2 c3 c4 rest, c ∈ out :=
    fun c hc => hperm.mem_iff.2 hc
  have hc1 : c1 ∈ out := hmem c1 (by simp [temp_password_chars])
  have hc2 : c2 ∈ out := hmem c2 (by simp [temp_password_chars])
  have hc3 : c3 ∈ out := hmem c3 (by simp [temp_password_chars])
  have hc4 : c4 ∈ out := hmem c4 (by simp [temp_password_chars])
  have hlength : out.length = 16 := by
    rw [hperm.length_eq]
    simp [temp_password_chars, hlen]
  refine ⟨?_, ⟨c1, hc1, h1⟩, ⟨c2, hc2, h2⟩, ⟨c3, hc3, h3⟩, ⟨c4, hc4, h4⟩⟩
  rw [String.length_mk, hlength]

/-- Witness for C5: a concrete draw and the identity shuffle. -/
theorem claim5_witness :
    16 ≤ (String.mk "Aa0!BBBBBBBBBBBB".data).length ∧
    (∃ ch ∈ "Aa0!BBBBBBBBBBBB".data, ch ∈ asciiUppercase) ∧
    (∃ ch ∈ "Aa0!BBBBBBBBBBBB".data, ch ∈ asciiLowercase) ∧
    (∃ ch ∈ "Aa0!BBBBBBBBBBBB".data, ch ∈ asciiDigits) ∧
    (∃ ch ∈ "Aa0!BBBBBBBBBBBB".data, ch ∈ passwordSpecial) :=
  claim5_temp_password_policy 'A' 'a' '0' '!' "BBBBBBBBBBBB".data
    "Aa0!BBBBBBBBBBBB".data (by decide) (by decide) (by decide) (by decide)
    (by decide)
    (by
      have h : "Aa0!BBBBBBBBBBBB".data =
          temp_password_chars 'A' 'a' '0' '!' "BBBBBBBBBBBB".data := by decide
      rw [h])

/-- A concrete customer profile shared by the directory examples. -/
def demoCust : CustomerProfile := ⟨"a@b.c", "Alice"⟩

/-- A resend environment whose provider reports the given user status and
whose password-reset and email calls succeed. -/
def resendEnvWith (st : Option String) : ResendEnv :=
  ⟨.ok demoCust, .ok st, none, true⟩

/-- C7: `resend_customer_welcome` on a `CONFIRMED` account fails with
BadRequest and leaves the account untouched; on `FORCE_CHANGE_PASSWORD` or
`RESET_REQUIRED` (with the provider's reset and email calls succeeding) it
sets the freshly generated temporary password and succeeds; on any other
status it fails with BadRequest and leaves the account untouched. -/
theorem claim7_resend_status_gate (cid pw : String) (env : ResendEnv)
    (cust : CustomerProfile) (st : Option String)
    (hget : env.getCustomer = .ok cust)
    (hst : env.adminGetUser = .ok st) :
    (st = some "CONFIRMED" →
      resend_customer_welcome cid pw env =
        (none, .error ⟨400, "Cannot resend welcome email. Customer has already set their own password. Use the forgot password flow instead."⟩)) ∧
    ((st = some "FORCE_CHANGE_PASSWORD" ∨ st = some "RESET_REQUIRED") →
      env.adminSetPassword = none → env.welcomeEmailOk = true →
      resend_customer_welcome cid pw env =
        (some pw, .ok { customerId := cid
                        email := cust.email
                        name := cust.name
                        temporaryPassword := pw
                        message := "Welcome email resent with new temporary password" })) ∧
    (st ≠ some "CONFIRMED" → st ≠ some "FORCE_CHANGE_PASSWORD" →
      st ≠ some "RESET_REQUIRED" →
      ∃ d, resend_customer_welcome cid pw env = (none, .error ⟨400, d⟩)) := by
  refine ⟨fun h => ?_, fun h hpw he => ?_, fun h1 h2 h3 => ?_⟩
  · subst h
    simp [resend_customer_welcome, hget, hst]
  · rcases h with h | h <;> subst h <;>
      simp [resend_customer_welcome, hget, hst, hpw, he]
  · exact ⟨"Cannot resend welcome email. User status is " ++ pyStr st ++
      ". This feature is only for users who haven't completed initial login.",
      by simp [resend_customer_welcome, hget, hst, h1, h2, h3]⟩

/-- Witness for C7: the three cases at concrete statuses — `CONFIRMED` is
rejected, `FORCE_CHANGE_PASSWORD` succeeds with the new password set, and
the foreign status `COMPROMISED` is rejected. -/
theorem claim7_witness :
    resend_customer_welcome "c-1" "Wk9!wwwwwwwwwwww"
        (resendEnvWith (some "CONFIRMED")) =
      (none, .error ⟨400, "Cannot resend welcome email. Customer has already set their own password. Use the forgot password flow instead."⟩) ∧
    resend_customer_welcome "c-1" "Wk9!wwwwwwwwwwww"
        (resendEnvWith (some "FORCE_CHANGE_PASSWORD")) =
      (some "Wk9!wwwwwwwwwwww",
        .ok ⟨"c-1", "a@b.c", "Alice", "Wk9!wwwwwwwwwwww",
          "Welcome email resent with new temporary password"⟩) ∧
    (∃ d, resend_customer_welcome "c-1" "Wk9!wwwwwwwwwwww"
        (resendEnvWith (some "COMPROMISED")) = (none, .error ⟨400, d⟩)) :=
  ⟨(claim7_resend_status_gate "c-1" "Wk9!wwwwwwwwwwww" _ demoCust
      (some "CONFIRMED") rfl rfl).1 rfl,
    (claim7_resend_status_gate "c-1" "Wk9!wwwwwwwwwwww" _ demoCust
      (some "FORCE_CHANGE_PASSWORD") rfl rfl).2.1 (Or.inl rfl) rfl rfl,
    (claim7_resend_status_gate "c-1" "Wk9!wwwwwwwwwwww" _ demoCust
      (some "COMPROMISED") rfl rfl).2.2 (by decide) (by decide) (by decide)⟩

/-- C8: when the account is created successfully but the welcome email
fails, `create_customer` still succeeds with the full creation result
including the temporary password — the outcome is independent of the email
outcome. -/
theorem claim8_email_failure_swallowed (email name : String)
    (phoneNumber : Option String) (pw : String) (env : CreateCustomerEnv)
    (user : CreatedUser)
    (hphone : phone_validation_step phoneNumber = none)
    (h1 : env.adminCreateUser = .ok user)
    (h2 : env.adminUpdateAttrs = none)
    (h3 : env.adminSetPassword = none)
    (h4 : env.adminAddToGroup = none) :
    create_customer email name phoneNumber pw
        { env with welcomeEmailOk := false } =
      .ok { customerId := user.subAttr
            email := email
            name := name
            phoneNumber := phone_after_validation phoneNumber
            customerFolder := "customers/" ++ pyStr user.subAttr
            createdDate := user.createDate
            enabled := user.enabled
            userStatus := user.userStatus.getD "FORCE_CHANGE_PASSWORD"
            temporaryPassword := pw } ∧
    create_customer email name phoneNumber pw
        { env with welcomeEmailOk := false } =
      create_customer email name phoneNumber pw
        { env with welcomeEmailOk := true } := by
  constructor <;> simp [create_customer, hphone, h1, h2, h3, h4]

/-- Witness for C8: a concrete creation with the welcome email failing. -/
theorem claim8_witness :
    create_customer "a@b.c" "Alice" none "Wk9!wwwwwwwwwwww"
        { (⟨.ok ⟨some "sub-1", "2024-01-01T00:00:00", true,
            some "FORCE_CHANGE_PASSWORD"⟩, none, none, none, true⟩ :
              CreateCustomerEnv) with welcomeEmailOk := false } =
      .ok { customerId := some "sub-1"
            email := "a@b.c"
            name := "Alice"
            phoneNumber := phone_after_validation none
            customerFolder := "customers/" ++ pyStr (some "sub-1")
            createdDate := "2024-01-01T00:00:00"
            enabled := true
            userStatus := (some "FORCE_CHANGE_PASSWORD").getD
              "FORCE_CHANGE_PASSWORD"
            temporaryPassword := "Wk9!wwwwwwwwwwww" } ∧
    create_customer "a@b.c" "Alice" none "Wk9!wwwwwwwwwwww"
        { (⟨.ok ⟨some "sub-1", "2024-01-01T00:00:00", true,
            some "FORCE_CHANGE_PASSWORD"⟩, none, none, none, true⟩ :
              CreateCustomerEnv) with welcomeEmailOk := false } =
      create_customer "a@b.c" "Alice" none "Wk9!wwwwwwwwwwww"
        { (⟨.ok ⟨some "sub-1", "2024-01-01T00:00:00", true,
            some "FORCE_CHANGE_PASSWORD"⟩, none, none, none, true⟩ :
              CreateCustomerEnv) with welcomeEmailOk := true } :=
  claim8_email_failure_swallowed "a@b.c" "Alice" none "Wk9!wwwwwwwwwwww" _
    ⟨some "sub-1", "2024-01-01T00:00:00", true, some "FORCE_CHANGE_PASSWORD"⟩
    rfl rfl rfl rfl rfl

/-- C9: the stored key is
`{scope}/{YYYY/MM/DD}/{sanitized-stem}_{timestamp}.{ext}` — the scope folder
is `customers/{c}` for a (non-empty) customer id and `general` otherwise,
the date folders and the timestamp come from the upload instant, and the
sanitized name is the base name of the uploaded filename (directory
components removed) split at its last dot into stem and extension. -/
theorem claim9_s3_key_shape (filename : String) (c : String) (now : DateTime)
    (stem ext : List Char)
    (hsplit : rsplitDot (pathName filename).data = (stem, some ext))
    (hc : c ≠ "") :
    generate_s3_key filename (some c) now =
      "customers/" ++ c ++ "/" ++ strfDateHier now ++ "/" ++
        String.mk stem ++ "_" ++ strfCompact now ++ "." ++ String.mk ext ∧
    generate_s3_key filename none now =
      "general/" ++ strfDateHier now ++ "/" ++
        String.mk stem ++ "_" ++ strfCompact now ++ "." ++ String.mk ext := by
  have ht : pyTruthy (some c) = true := by simp [pyTruthy, hc]
  constructor <;>
    simp [generate_s3_key, hsplit, ht, pyTruthy, hc, String.append_assoc]

/-- Witness for C9: a concrete filename with a directory component, at a
concrete instant. -/
theorem claim9_witness :
    generate_s3_key "dir/photo.jpg" (some "alice") ⟨2024, 3, 7, 15, 4, 5⟩ =
      "customers/" ++ "alice" ++ "/" ++ strfDateHier ⟨2024, 3, 7, 15, 4, 5⟩ ++
        "/" ++ String.mk "photo".data ++ "_" ++
        strfCompact ⟨2024, 3, 7, 15, 4, 5⟩ ++ "." ++ String.mk "jpg".data ∧
    generate_s3_key "dir/photo.jpg" none ⟨2024, 3, 7, 15, 4, 5⟩ =
      "general/" ++ strfDateHier ⟨2024, 3, 7, 15, 4, 5⟩ ++ "/" ++
        String.mk "photo".data ++ "_" ++ strfCompact ⟨2024, 3, 7, 15, 4, 5⟩ ++
        "." ++ String.mk "jpg".data :=
  claim9_s3_key_shape "dir/photo.jpg" "alice" ⟨2024, 3, 7, 15, 4, 5⟩
    "photo".data "jpg".data (by decide) (by decide)

/-- C10: the storage-scoping identity is the `custom:customer_id` claim when
present and non-empty, else the `sub` claim; with both absent it is `None`,
and the customer-scoped listing then interpolates the literal
`customers/None/`. -/
theorem claim10_customer_identity_fallback (u : Claims)
    (bucket : List S3Object) (maxKeys : Nat) :
    (∀ s, u.customCustomerId = some s → s ≠ "" →
      get_customer_id u = some s) ∧
    ((u.customCustomerId = none ∨ u.customCustomerId = some "") →
      get_customer_id u = u.sub) ∧
    (u.customCustomerId = none → u.sub = none → get_customer_id u = none) ∧
    list_images_for_customer bucket none maxKeys =
      sortByLastModifiedDesc
        (list_images bucket "customers/None/" maxKeys ++
          list_images bucket "general/" maxKeys) := by
  have hpfx : customerScopePfx none = "customers/None/" := by decide
  refine ⟨fun s h hne => ?_, fun h => ?_, fun h1 h2 => ?_, ?_⟩
  · simp [get_customer_id, pyOr, pyTruthy, h, hne]
  · rcases h with h | h <;> simp [get_customer_id, pyOr, pyTruthy, h]
  · simp [get_customer_id, pyOr, pyTruthy, h1, h2]
  · simp [list_images_for_customer, hpfx]

/-- Witness for C10: concrete claims maps for each fallback case, and a
concrete bucket for the `customers/None/` listing. -/
theorem claim10_witness :
    get_customer_id ⟨none, some "cid-1", some "sub-1", none, none⟩ =
      some "cid-1" ∧
    get_customer_id ⟨none, some "", some "sub-1", none, none⟩ =
      (⟨none, some "", some "sub-1", none, none⟩ : Claims).sub ∧
    get_customer_id ⟨none, none, none, none, none⟩ = none ∧
    list_images_for_customer [⟨"customers/None/a.jpg", 1, "t", "image/png"⟩]
        none 5 =
      sortByLastModifiedDesc
        (list_images [⟨"customers/None/a.jpg", 1, "t", "image/png"⟩]
            "customers/None/" 5 ++
          list_images [⟨"customers/None/a.jpg", 1, "t", "image/png"⟩]
            "general/" 5) :=
  ⟨(claim10_customer_identity_fallback
      ⟨none, some "cid-1", some "sub-1", none, none⟩ [] 0).1 "cid-1" rfl
      (by decide),
    (claim10_customer_identity_fallback
      ⟨none, some "", some "sub-1", none, none⟩ [] 0).2.1 (Or.inr rfl),
    (claim10_customer_identity_fallback
      ⟨none, none, none, none, none⟩ [] 0).2.2.1 rfl rfl,
    (claim10_customer_identity_fallback ⟨none, none, none, none, none⟩
      [⟨"customers/None/a.jpg", 1, "t", "image/png"⟩] 5).2.2.2⟩

end Hovver
